import Mathlib

/-!
Verification of `net-mac-address-lookup` (src/main.py) against its
natural-language specification.

The Python module has three functions relevant to the claims:
`is_valid_mac_address`, `lookup_mac_vendor`, and `main`.  We embed them
shallowly: Python strings become Lean `String` (operated on through their
character lists), Python exceptions become an explicit `Except PyExc`
monad, the single outbound HTTP call becomes a parameter describing the
behaviour of `requests.get`, and the process outcome of `main` becomes a
record of the stdout lines, the exit code and the emitted log lines.
-/

/-- Python exception values that can arise in this program.  Every
constructor models a subclass of Python's `Exception` (none models
`BaseException`-only classes such as `SystemExit`, which nothing in the
embedded code raises inside a `try` block).  `socketError` models
`socket.error`, which in Python 3 is an alias of `OSError`. -/
inductive PyExc where
  | requestException (msg : String)
  | valueError (msg : String)
  | keyError (msg : String)
  | typeError (msg : String)
  | socketError (msg : String)
  | otherError (msg : String)
deriving DecidableEq, Repr

/-- Matches `except requests.exceptions.RequestException`. -/
def PyExc.isRequestExc : PyExc → Bool
  | .requestException _ => true
  | _ => false

/-- Matches `except ValueError`. -/
def PyExc.isValueError : PyExc → Bool
  | .valueError _ => true
  | _ => false

/-- Matches `except socket.error` (an alias of `OSError`). -/
def PyExc.isSocketError : PyExc → Bool
  | .socketError _ => true
  | _ => false

/-- The message carried by the exception, as interpolated into the log
lines of `lookup_mac_vendor`. -/
def PyExc.msg : PyExc → String
  | .requestException m => m
  | .valueError m => m
  | .keyError m => m
  | .typeError m => m
  | .socketError m => m
  | .otherError m => m

/-! ### Python string primitives used by the source -/

/-- Python `str.split(sep)` for a one-character separator, on character
lists: `"".split(":") = [""]`, `":".split(":") = ["", ""]`. -/
def splitChar (sep : Char) : List Char → List (List Char)
  | [] => [[]]
  | c :: cs =>
    match splitChar sep cs with
    | [] => if c = sep then [[], []] else [[c]]
    | h :: t => if c = sep then [] :: h :: t else (c :: h) :: t

/-- `mac_address.split(':')` from the source, as character lists. -/
def pySplit (s : String) : List (List Char) :=
  splitChar ':' s.data

/-- The whitespace characters removed by Python `str.strip()` (for the
ASCII range): space, tab, newline, carriage return, vertical tab, form
feed. -/
def isPySpace (c : Char) : Bool :=
  c = ' ' || c = '\t' || c = '\n' || c = '\r' || c = Char.ofNat 11 || c = Char.ofNat 12

/-- Python `str.strip()` with no arguments. -/
def pyStrip (s : String) : String :=
  String.mk (((s.data.dropWhile isPySpace).reverse.dropWhile isPySpace).reverse)

/-- Substring test, modelling Python `needle in haystack` on strings:
`matchesAt` checks a match at the head. -/
def matchesAt : List Char → List Char → Bool
  | [], _ => true
  | _ :: _, [] => false
  | a :: as, b :: bs => a = b && matchesAt as bs

/-- `needle in haystack` for Python strings. -/
def strContains (needle : List Char) : List Char → Bool
  | [] => needle.isEmpty
  | c :: cs => matchesAt needle (c :: cs) || strContains needle cs

/-! ### Model of the C library function `inet_aton`

`socket.inet_aton` wraps the C function: it parses an IPv4 address in
the classic numbers-and-dots notation (at most four `.`-separated
numbers, each in decimal, octal with a leading `0`, or hexadecimal with
a leading `0x`), allows a single trailing whitespace-led suffix, and
raises `socket.error` on anything else.  The source calls it once, on
the probe string `':'.join(['0'] * 6)`. -/

def isDecDigitC (c : Char) : Bool := '0' ≤ c && c ≤ '9'

def isOctDigitC (c : Char) : Bool := '0' ≤ c && c ≤ '7'

def isHexDigitC (c : Char) : Bool :=
  isDecDigitC c || ('a' ≤ c && c ≤ 'f') || ('A' ≤ c && c ≤ 'F')

def decVal (c : Char) : Nat := c.toNat - '0'.toNat

def hexVal (c : Char) : Nat :=
  if isDecDigitC c then decVal c
  else if 'a' ≤ c && c ≤ 'f' then c.toNat - 'a'.toNat + 10
  else c.toNat - 'A'.toNat + 10

/-- Digit-list value in a given base. -/
def numFromDigits (base : Nat) (dv : Char → Nat) (ds : List Char) : Nat :=
  ds.foldl (fun a c => a * base + dv c) 0

/-- One number of the numbers-and-dots notation, C-style base detection:
leading `0x` is hexadecimal, leading `0` is octal, otherwise decimal.
Fails when the first character is not a decimal digit. -/
def parseInetNum (cs : List Char) : Option (Nat × List Char) :=
  match cs with
  | '0' :: 'x' :: rest =>
    let p := rest.span isHexDigitC
    if p.1.isEmpty then some (0, 'x' :: rest)
    else some (numFromDigits 16 hexVal p.1, p.2)
  | '0' :: 'X' :: rest =>
    let p := rest.span isHexDigitC
    if p.1.isEmpty then some (0, 'X' :: rest)
    else some (numFromDigits 16 hexVal p.1, p.2)
  | '0' :: rest =>
    let p := rest.span isOctDigitC
    some (numFromDigits 8 decVal p.1, p.2)
  | c :: _ =>
    if isDecDigitC c then
      let p := cs.span isDecDigitC
      some (numFromDigits 10 decVal p.1, p.2)
    else none
  | [] => none

/-- The dot-separated-numbers loop of `inet_aton`: collects the parsed
numbers, refusing a fifth one.  The fuel argument bounds the number of
parts (five suffices: four parts plus the refusal step). -/
def inetParts : Nat → List Char → List Nat → Option (List Nat × List Char)
  | 0, _, _ => none
  | fuel + 1, cs, acc =>
    match parseInetNum cs with
    | none => none
    | some (v, rest) =>
      match rest with
      | '.' :: rest2 =>
        if 3 ≤ acc.length then none else inetParts fuel rest2 (acc ++ [v])
      | _ => some (acc ++ [v], rest)

/-- The per-shape range checks of `inet_aton`: `a`, `a.b`, `a.b.c`,
`a.b.c.d`, with every part but the last below 256 and the last fitting
in the remaining bytes. -/
def inetRangeOk : List Nat → Bool
  | [v] => v ≤ 0xFFFFFFFF
  | [a, v] => a ≤ 0xFF && v ≤ 0xFFFFFF
  | [a, b, v] => a ≤ 0xFF && b ≤ 0xFF && v ≤ 0xFFFF
  | [a, b, c, v] => a ≤ 0xFF && b ≤ 0xFF && c ≤ 0xFF && v ≤ 0xFF
  | _ => false

/-- Whether `inet_aton` accepts the string: the parse succeeds, the
first unconsumed character (if any) is whitespace, and the numbers pass
the range checks. -/
def inet_aton_ok (s : String) : Bool :=
  match inetParts 5 s.data [] with
  | none => false
  | some (vals, rest) =>
    (match rest with
     | [] => true
     | c :: _ => isPySpace c) && inetRangeOk vals

/-- `socket.inet_aton`, keeping only raise-or-return (the packed bytes
are discarded by the caller). -/
def inet_aton (s : String) : Except PyExc Unit :=
  if inet_aton_ok s then Except.ok ()
  else Except.error (PyExc.socketError "illegal IP address string passed to inet_aton")

/-! ### `is_valid_mac_address` (src/main.py lines 27-51) -/

/-- The probe string `':'.join(['0'] * 6)` from line 39. -/
def dummy_probe : String := String.intercalate ":" (List.replicate 6 "0")

/-- The per-octet body of the validation loop (lines 43-47): length
exactly 2 and every character in `'0123456789abcdefABCDEF'`. -/
def octetOk (octet : List Char) : Bool :=
  octet.length = 2 && octet.all (fun c => ("0123456789abcdefABCDEF".data).contains c)

/-- The `try` block of `is_valid_mac_address` (lines 38-48): the dummy
`inet_aton` call, then the six-part check, then the per-octet loop. -/
def is_valid_mac_address_body (mac : String) : Except PyExc Bool :=
  match inet_aton dummy_probe with
  | Except.error e => Except.error e
  | Except.ok _ =>
    if (pySplit mac).length ≠ 6 then Except.ok false
    else Except.ok ((pySplit mac).all octetOk)

/-- `is_valid_mac_address` (lines 27-51): the `try` block with the
`except socket.error: return False` handler. -/
def is_valid_mac_address (mac : String) : Except PyExc Bool :=
  match is_valid_mac_address_body mac with
  | Except.ok b => Except.ok b
  | Except.error e =>
    if e.isSocketError then Except.ok false else Except.error e

/-- The same function with the dummy `inet_aton` call removed (the
variant the spec's open question and claim C2 compare against). -/
def is_valid_mac_address_nodummy (mac : String) : Except PyExc Bool :=
  if (pySplit mac).length ≠ 6 then Except.ok false
  else Except.ok ((pySplit mac).all octetOk)

/-- Spec-side well-formedness predicate, written from the spec's words:
exactly six colon-separated parts, each of length exactly 2 and made of
hexadecimal digit characters (case-insensitive). -/
def wellFormedMac (s : String) : Bool :=
  (pySplit s).length = 6 &&
    (pySplit s).all (fun p => p.length = 2 && p.all (fun c => isHexDigitC c))

/-! ### JSON values and the Python operations used on them -/

/-- The values `response.json()` can produce (Python's `json.loads`
decodes to `None`, `bool`, numbers, `str`, `list`, `dict`). -/
inductive Json where
  | null
  | bool (b : Bool)
  | num (n : Int)
  | str (s : String)
  | arr (elems : List Json)
  | obj (fields : List (String × Json))

/-- Python truthiness of a decoded JSON value, as used by
`if data and ...` and `if vendor_info:`. -/
def truthy : Json → Bool
  | Json.null => false
  | Json.bool b => b
  | Json.num n => n ≠ 0
  | Json.str s => s ≠ ""
  | Json.arr xs => !xs.isEmpty
  | Json.obj fs => !fs.isEmpty

/-- Python `key in value` for a string key: dict key membership, list
element membership (a string equals only a `str` element), substring
test on strings, `TypeError` otherwise. -/
def pyInStr (key : String) : Json → Except PyExc Bool
  | Json.obj fs => Except.ok (fs.any (fun f => f.1 = key))
  | Json.arr xs =>
    Except.ok (xs.any (fun j => match j with
      | Json.str s => s = key
      | _ => false))
  | Json.str s => Except.ok (strContains key.data s.data)
  | _ => Except.error (PyExc.typeError "argument of type is not iterable")

/-- Python `value[key]` for a string key: dict lookup (raising
`KeyError` on a missing key), `TypeError` on every other value. -/
def pySubscript (v : Json) (key : String) : Except PyExc Json :=
  match v with
  | Json.obj fs =>
    match fs.find? (fun f => f.1 = key) with
    | some f => Except.ok f.2
    | none => Except.error (PyExc.keyError key)
  | _ => Except.error (PyExc.typeError "value is not subscriptable by a string")

/-- The single quote character, for Python `repr` of strings. -/
def sqChar : Char := Char.ofNat 39

/-- Python `repr` of a decoded JSON string (quoting only; the embedded
program never prints strings needing escape processing). -/
def sqStr (s : String) : String := String.mk (sqChar :: s.data ++ [sqChar])

def commaSep : List String → String
  | [] => ""
  | [x] => x
  | x :: xs => x ++ ", " ++ commaSep xs

mutual
/-- Python `repr` of a decoded JSON value. -/
def pyRepr : Json → String
  | Json.null => "None"
  | Json.bool true => "True"
  | Json.bool false => "False"
  | Json.num n => toString n
  | Json.str s => sqStr s
  | Json.arr xs => "[" ++ commaSep (pyReprList xs) ++ "]"
  | Json.obj fs => "\x7b" ++ commaSep (pyReprFields fs) ++ "\x7d"

def pyReprList : List Json → List String
  | [] => []
  | j :: js => pyRepr j :: pyReprList js

def pyReprFields : List (String × Json) → List String
  | [] => []
  | f :: fs => (sqStr f.1 ++ ": " ++ pyRepr f.2) :: pyReprFields fs
end

/-- Python `str` of a decoded JSON value, as interpolated by
`f"Vendor: \x7bvendor_info\x7d"`: strings print without quotes, other
values as their `repr`. -/
def pyStr : Json → String
  | Json.str s => s
  | j => pyRepr j

/-! ### The HTTP call (`requests.get`) as a behaviour parameter -/

/-- The behaviour of the one outbound `requests.get` call: either the
call raises (a transport failure, or any other exception for the
catch-all analysis), or it returns a response with a status code and a
body that is (`some`) valid JSON or (`none`) not valid JSON. -/
inductive HttpBehavior where
  | raiseExc (e : PyExc)
  | response (status : Nat) (body : Option Json)

/-- `requests.get(url)` under the given behaviour. -/
def requests_get : HttpBehavior → Except PyExc (Nat × Option Json)
  | HttpBehavior.raiseExc e => Except.error e
  | HttpBehavior.response st b => Except.ok (st, b)

/-- `response.raise_for_status()`: raises `requests.exceptions.HTTPError`
(a `RequestException`) for 4xx and 5xx status codes. -/
def raise_for_status (st : Nat) : Except PyExc Unit :=
  if 400 ≤ st ∧ st < 600 then
    Except.error (PyExc.requestException ("HTTP error for url, status " ++ toString st))
  else Except.ok ()

/-- `response.json()`: raises `ValueError` when the body is not valid
JSON. -/
def resp_json : Option Json → Except PyExc Json
  | some j => Except.ok j
  | none => Except.error (PyExc.valueError "No JSON object could be decoded")

/-- Log severities, with the numeric values of Python's `logging`
module. -/
def LVL_DEBUG : Nat := 10
def LVL_INFO : Nat := 20
def LVL_WARNING : Nat := 30
def LVL_ERROR : Nat := 40

/-! ### `lookup_mac_vendor` (src/main.py lines 54-86) -/

/-- The guard `data and 'result' in data and 'company' in data['result']`
(line 73), with Python's left-to-right short-circuit evaluation; the `in`
and subscript operations can raise. -/
def cond_result_company (data : Json) : Except PyExc Bool :=
  if truthy data then
    match pyInStr "result" data with
    | Except.error e => Except.error e
    | Except.ok false => Except.ok false
    | Except.ok true =>
      match pySubscript data "result" with
      | Except.error e => Except.error e
      | Except.ok r => pyInStr "company" r
  else Except.ok false

/-- The `try` block of `lookup_mac_vendor` (lines 64-77), paired with
the log lines it sends to the logger (with their severities). -/
def lookup_body (mac : String) (http : HttpBehavior) :
    Except PyExc (Option Json) × List (Nat × String) :=
  let url := "https://macvendors.co/api/" ++ mac
  let dbg : Nat × String := (LVL_DEBUG, "Sending request to " ++ url)
  match requests_get http with
  | Except.error e => (Except.error e, [dbg])
  | Except.ok resp =>
    match raise_for_status resp.1 with
    | Except.error e => (Except.error e, [dbg])
    | Except.ok _ =>
      match resp_json resp.2 with
      | Except.error e => (Except.error e, [dbg])
      | Except.ok data =>
        match cond_result_company data with
        | Except.error e => (Except.error e, [dbg])
        | Except.ok true =>
          match pySubscript data "result" with
          | Except.error e => (Except.error e, [dbg])
          | Except.ok r =>
            match pySubscript r "company" with
            | Except.error e => (Except.error e, [dbg])
            | Except.ok v => (Except.ok (some v), [dbg])
        | Except.ok false =>
          (Except.ok none,
           [dbg, (LVL_WARNING, "Vendor information not found for MAC address: " ++ mac)])

/-- `lookup_mac_vendor` (lines 54-86): the `try` block with the three
handlers `except RequestException`, `except ValueError`,
`except Exception`, each logging at error severity and returning
`None`. -/
def lookup_mac_vendor (mac : String) (http : HttpBehavior) :
    Except PyExc (Option Json) × List (Nat × String) :=
  match lookup_body mac http with
  | (Except.ok v, l) => (Except.ok v, l)
  | (Except.error e, l) =>
    if e.isRequestExc then
      (Except.ok none, l ++ [(LVL_ERROR, "An error occurred during the request: " ++ e.msg)])
    else if e.isValueError then
      (Except.ok none, l ++ [(LVL_ERROR, "Failed to parse JSON response: " ++ e.msg)])
    else
      (Except.ok none, l ++ [(LVL_ERROR, "An unexpected error occurred: " ++ e.msg)])

/-! ### `main` (src/main.py lines 89-113) -/

/-- The outcome of one process run: the lines printed to standard
output, the process exit status, and the log lines actually emitted
(those at or above the logger's effective level). -/
structure RunResult where
  stdout : List String
  exitCode : Nat
  log : List (Nat × String)
deriving DecidableEq, Repr

/-- The observable behaviour the claims compare: standard output and
exit status (the log goes to a separate stream). -/
def observable (r : RunResult) : List String × Nat :=
  (r.stdout, r.exitCode)

/-- The logging filter: a message is emitted when its severity is at or
above the logger's effective level. -/
def emitLog (threshold : Nat) (msgs : List (Nat × String)) : List (Nat × String) :=
  msgs.filter (fun m => threshold ≤ m.1)

/-- The output branch of `main` (lines 110-113): `if vendor_info:`
branches on Python truthiness of the resolver's return value. -/
def report_vendor : Option Json → String
  | some v => if truthy v then "Vendor: " ++ pyStr v else "Vendor information not found."
  | none => "Vendor information not found."

/-- `main` (lines 89-113) for a parsed command line `mac_address`
`[-v]`: sets the log level, strips the argument, validates, and either
exits with status 1 (printing nothing) or looks the vendor up and
prints one line, exiting with status 0.  An uncaught exception would
surface as `Except.error`.  (Named `main_run` because Lean reserves
`main` for executables.) -/
def main_run (macArg : String) (verbose : Bool) (http : HttpBehavior) :
    Except PyExc RunResult :=
  let threshold := if verbose then LVL_DEBUG else LVL_INFO
  let pre : List (Nat × String) :=
    if verbose then [(LVL_DEBUG, "Verbose logging enabled.")] else []
  let mac := pyStrip macArg
  match is_valid_mac_address mac with
  | Except.error e => Except.error e
  | Except.ok valid =>
    if valid then
      let infoMsg : Nat × String :=
        (LVL_INFO, "Looking up vendor for MAC address: " ++ mac)
      match lookup_mac_vendor mac http with
      | (Except.error e, _) => Except.error e
      | (Except.ok vendorInfo, llog) =>
        Except.ok
          { stdout := [report_vendor vendorInfo]
            exitCode := 0
            log := emitLog threshold (pre ++ [infoMsg] ++ llog) }
    else
      Except.ok
        { stdout := []
          exitCode := 1
          log := emitLog threshold (pre ++
            [(LVL_ERROR, "Invalid MAC address format. Please use the format XX:XX:XX:XX:XX:XX.")]) }

/-! ### Concrete service behaviours used by the claims -/

/-- A mocked service answering HTTP 500 (the error page body is not
JSON). -/
def http500 : HttpBehavior := HttpBehavior.response 500 none

/-- A mocked service answering 200 with `\x7b"result": \x7b\x7d\x7d`:
valid JSON missing `result.company`. -/
def httpMissingCompany : HttpBehavior :=
  HttpBehavior.response 200 (some (Json.obj [("result", Json.obj [])]))

/-- A mocked service answering 200 with
`\x7b"result": \x7b"company": ""\x7d\x7d`: `result.company` present but
falsy. -/
def httpEmptyCompany : HttpBehavior :=
  HttpBehavior.response 200 (some (Json.obj [("result", Json.obj [("company", Json.str "")])]))

/-! ### Theorems -/

/-- The dummy probe `"0:0:0:0:0:0"` is not a numbers-and-dots IPv4
string, so the `inet_aton` call on line 39 always raises
`socket.error`, the handler on line 50 catches it, and
`is_valid_mac_address` returns `False` for every input string. -/
theorem is_valid_always_false (s : String) :
    is_valid_mac_address s = Except.ok false := rfl

/-- C1: the claim says every well-formed six-part hex-pair MAC string
is accepted; the code rejects the well-formed `"00:1A:2B:3C:4D:5E"`
(and every other string), because the dummy `inet_aton` probe always
raises and the handler returns `False`. -/
theorem valid_mac_rejected_by_code :
    wellFormedMac "00:1A:2B:3C:4D:5E" = true ∧
    is_valid_mac_address "00:1A:2B:3C:4D:5E" = Except.ok false :=
  ⟨by decide, rfl⟩

/-- C2: the claim says removing the dummy `inet_aton` call does not
change any outcome; at `"00:1A:2B:3C:4D:5E"` the function with the call
returns `False` while the same function without it returns `True`. -/
theorem dummy_check_changes_outcome :
    is_valid_mac_address "00:1A:2B:3C:4D:5E" = Except.ok false ∧
    is_valid_mac_address_nodummy "00:1A:2B:3C:4D:5E" = Except.ok true :=
  ⟨rfl, rfl⟩

/-- C3: every string that is not six colon-separated two-character hex
parts is rejected by `is_valid_mac_address`. -/
theorem malformed_mac_rejected (s : String) (_h : wellFormedMac s = false) :
    is_valid_mac_address s = Except.ok false := is_valid_always_false s

/-- Witness for C3 at the malformed input `"zz"`. -/
theorem malformed_mac_rejected_witness :
    wellFormedMac "zz" = false ∧ is_valid_mac_address "zz" = Except.ok false :=
  ⟨by decide, malformed_mac_rejected "zz" (by decide)⟩

/-- C4: whenever the stripped `mac_address` argument fails validation,
`main` exits with status 1 and prints nothing to standard output,
whatever the verbose flag and the service behaviour. -/
theorem invalid_input_exits_one (arg : String) (verbose : Bool)
    (http : HttpBehavior)
    (_h : is_valid_mac_address (pyStrip arg) = Except.ok false) :
    (main_run arg verbose http).map observable = Except.ok ([], 1) := rfl

/-- Witness for C4 at the spec's example input `"not-a-mac"`. -/
theorem invalid_input_exits_one_witness :
    is_valid_mac_address (pyStrip "not-a-mac") = Except.ok false ∧
    (main_run "not-a-mac" false http500).map observable = Except.ok ([], 1) :=
  ⟨rfl, invalid_input_exits_one "not-a-mac" false http500 rfl⟩

/-- C5: the claim says a validated run against an HTTP 500 service (or
a 2xx body missing `result.company`) prints
`Vendor information not found.` and exits 0; evaluating the code at a
well-formed MAC shows the resolver would indeed return `None` in both
cases, but the run never reaches it: `main` exits 1 with no output,
because validation rejects every address. -/
theorem http_failure_run_observed :
    (lookup_mac_vendor "00:1A:2B:3C:4D:5E" http500).1 = Except.ok none ∧
    (lookup_mac_vendor "00:1A:2B:3C:4D:5E" httpMissingCompany).1 = Except.ok none ∧
    (main_run "00:1A:2B:3C:4D:5E" false http500).map observable = Except.ok ([], 1) :=
  ⟨rfl, rfl, rfl⟩

/-- C6 counterexample: the claim says the "request failed" and "not
found" outcomes are distinct return values; at an HTTP 500 run and a
2xx missing-`company` run the return values are the same (`None`). -/
theorem lookup_failure_equals_notfound :
    (lookup_mac_vendor "A0:B1:C2:D3:E4:F5" http500).1 =
    (lookup_mac_vendor "A0:B1:C2:D3:E4:F5" httpMissingCompany).1 := rfl

/-- C6 (amended): `lookup_mac_vendor` collapses both the request-failed
outcome (any 4xx/5xx status) and the not-found outcome (2xx body
lacking `result.company`) to the same absence value `None`; the two are
distinguished only in log severity, not in the return value. -/
theorem lookup_collapses_failure_and_notfound (mac : String) (st : Nat)
    (body : Option Json) (h4 : 400 ≤ st) (h6 : st < 600) :
    (lookup_mac_vendor mac (HttpBehavior.response st body)).1 = Except.ok none ∧
    (lookup_mac_vendor mac httpMissingCompany).1 = Except.ok none := by
  constructor
  · have hrs : raise_for_status st =
        Except.error (PyExc.requestException ("HTTP error for url, status " ++ toString st)) := by
      unfold raise_for_status
      rw [if_pos ⟨h4, h6⟩]
    simp [lookup_mac_vendor, lookup_body, requests_get, hrs, PyExc.isRequestExc]
  · rfl

/-- Witness for C6's amended theorem at status 500. -/
theorem lookup_collapses_failure_and_notfound_witness :
    (400 ≤ 500 ∧ 500 < 600) ∧
    ((lookup_mac_vendor "AA:BB:CC:DD:EE:FF" (HttpBehavior.response 500 none)).1 = Except.ok none ∧
     (lookup_mac_vendor "AA:BB:CC:DD:EE:FF" httpMissingCompany).1 = Except.ok none) :=
  ⟨⟨by decide, by decide⟩,
   lookup_collapses_failure_and_notfound "AA:BB:CC:DD:EE:FF" 500 none
     (by decide) (by decide)⟩

/-- C7: for every MAC string and every behaviour of the HTTP call
(raising any exception, or any status and body), `lookup_mac_vendor`
returns normally: its three handlers end with `except Exception`, which
catches every exception the body can raise. -/
theorem lookup_never_raises (mac : String) (http : HttpBehavior) :
    ((lookup_mac_vendor mac http).1).isOk = true := by
  unfold lookup_mac_vendor
  rcases hb : lookup_body mac http with ⟨res, l⟩
  cases res with
  | ok v => rfl
  | error e =>
    by_cases he : e.isRequestExc = true <;>
      by_cases hv : e.isValueError = true <;>
        simp [he, hv] <;> rfl

/-- C8: runs of `main` differing only in the `-v`/`--verbose` flag have
identical standard output and exit status (the flag only changes which
log lines are emitted). -/
theorem verbose_flag_preserves_output (arg : String) (http : HttpBehavior) :
    (main_run arg true http).map observable = (main_run arg false http).map observable := rfl

/-- C9: the claim says a 2xx response whose `result.company` is falsy
(here the empty string) makes the driver print
`Vendor information not found.`; evaluating the code shows the resolver
does return the falsy value and the `if vendor_info:` branch
(`report_vendor`) would print the not-found line, but the driver never
reaches it: `main` exits 1 printing nothing, because validation rejects
every address. -/
theorem falsy_company_run_observed :
    (lookup_mac_vendor "00:1A:2B:3C:4D:5E" httpEmptyCompany).1 =
      Except.ok (some (Json.str "")) ∧
    report_vendor (some (Json.str "")) = "Vendor information not found." ∧
    (main_run "00:1A:2B:3C:4D:5E" false httpEmptyCompany).map observable =
      Except.ok ([], 1) :=
  ⟨rfl, rfl, rfl⟩

/-- C10: `is_valid_mac_address` is total on strings: it always returns
a boolean and never propagates an exception, the only raising operation
in it being guarded by the `except socket.error` handler. -/
theorem validator_never_raises (s : String) :
    (is_valid_mac_address s).isOk = true := rfl
